import Mathlib

/-!
Shallow embedding of the kitchen-fridge CalDAV client core:
the resource-discovery client (`src/client.rs`), the calendar data model
(`src/data/calendar.rs`), and the per-item synchronization policy exercised
by `tests/sync.rs`.  Rust values are modelled by plain Lean data; fallible
Rust code returns an explicit `Outcome` that distinguishes a returned error
from a panic (`unwrap` / `todo!`).
-/

namespace KitchenFridge

/-- Model of `url::Url` as used by the client: an authority part and a path.
`Url::set_path` replaces the path and keeps the authority. -/
structure Url where
  authority : String
  path : String
deriving DecidableEq, Repr

/-- `Url::set_path`: replace the path component, keep everything else. -/
def Url.setPath (u : Url) (p : String) : Url :=
  { u with path := p }

/-- Model of a `minidom::Element`: local name, attributes, element children,
and the text content that `Element::text()` would return. -/
inductive XElem where
  | node (name : String) (attrs : List (String × String)) (children : List XElem) (text : String)

/-- `Element::name()`: the local tag name. -/
def XElem.name : XElem → String
  | .node n _ _ _ => n

/-- `Element::attrs()` as an association list. -/
def XElem.attrs : XElem → List (String × String)
  | .node _ a _ _ => a

/-- `Element::children()`: the element children. -/
def XElem.children : XElem → List XElem
  | .node _ _ c _ => c

/-- `Element::text()`: the text content. -/
def XElem.text : XElem → String
  | .node _ _ _ t => t

/-- `Element::attr(key)`: the first attribute with the given key, if any. -/
def XElem.attr (e : XElem) (key : String) : Option String :=
  (e.attrs.find? (fun kv => kv.1 == key)).map (·.2)

mutual

/-- Modelled from the spec: `find_elem` from `src/utils.rs` (not under `src/`).
The spec says response parsing "resolves nested elements by local tag name
irrespective of namespace prefix": depth-first search for the first element
of the subtree whose local name matches. -/
def findElem (e : XElem) (nm : String) : Option XElem :=
  match e with
  | .node n a cs t =>
    if n == nm then some (.node n a cs t) else findElemL cs nm

/-- Depth-first search over a list of sibling subtrees. -/
def findElemL (l : List XElem) (nm : String) : Option XElem :=
  match l with
  | [] => none
  | c :: cs =>
    match findElem c nm with
    | some r => some r
    | none => findElemL cs nm

end

mutual

/-- Modelled from the spec: `find_elems` from `src/utils.rs` (not under `src/`).
Collects every element of the subtree with the given local name, in
document order ("locates `<response>` elements inside a multistatus
document"). -/
def findElems (e : XElem) (nm : String) : List XElem :=
  match e with
  | .node n a cs t =>
    (if n == nm then [XElem.node n a cs t] else []) ++ findElemsL cs nm

/-- Collection over a list of sibling subtrees. -/
def findElemsL (l : List XElem) (nm : String) : List XElem :=
  match l with
  | [] => []
  | c :: cs => findElems c nm ++ findElemsL cs nm

end

/-- The `SupportedComponents` bitflags from `src/data/calendar.rs`:
`Event = 1`, `Todo = 2`, modelled as two booleans. -/
structure SupportedComponents where
  event : Bool
  todo : Bool
deriving DecidableEq, Repr

/-- `SupportedComponents::empty()`. -/
def SupportedComponents.empty : SupportedComponents :=
  ⟨false, false⟩

/-- One step of the `for child in element.children()` loop of
`SupportedComponents::try_from`: dispatch on the child's `name` attribute. -/
def SupportedComponents.step (flags : SupportedComponents) (child : XElem) :
    SupportedComponents :=
  match child.attr "name" with
  | none => flags
  | some s =>
    if s = "VEVENT" then { flags with event := true }
    else if s = "VTODO" then { flags with todo := true }
    else flags

/-- `SupportedComponents::try_from` (`src/data/calendar.rs`): reject any
element whose local name is not `supported-calendar-component-set`, then
fold over the children, setting the Event flag on `name="VEVENT"` and the
Todo flag on `name="VTODO"`, ignoring every other child. -/
def SupportedComponents.tryFrom (element : XElem) :
    Except String SupportedComponents :=
  if element.name ≠ "supported-calendar-component-set" then
    .error "Element must be a <supported-calendar-component-set>"
  else
    .ok (element.children.foldl SupportedComponents.step SupportedComponents.empty)

/-- Modelled from the spec: `RemoteCalendar` (`src/calendar/remote_calendar.rs`,
not under `src/`).  "Surviving entries become Calendar records keyed by
resolved absolute URL": a record with a display name, its URL (also its
identifier `id()`), and the supported-component flags. -/
structure RemoteCalendar where
  name : String
  url : Url
  supportedComponents : SupportedComponents
deriving DecidableEq, Repr

/-- `RemoteCalendar::id()` is the calendar's URL. -/
def RemoteCalendar.id (c : RemoteCalendar) : Url :=
  c.url

/-- The calendar map of `populate_calendars`, a `HashMap` modelled as an
association list with insert-or-replace semantics. -/
abbrev CalMap := List (Url × RemoteCalendar)

/-- `HashMap::insert`: replace the value at an existing key, else append. -/
def insertAssoc (m : CalMap) (k : Url) (v : RemoteCalendar) : CalMap :=
  match m with
  | [] => [(k, v)]
  | (k0, v0) :: rest =>
    if k0 = k then (k, v) :: rest else (k0, v0) :: insertAssoc rest k v

/-- `HashMap::get`: the value at a key, if present. -/
def lookupAssoc (m : CalMap) (k : Url) : Option RemoteCalendar :=
  match m with
  | [] => none
  | (k0, v0) :: rest => if k0 = k then some v0 else lookupAssoc rest k

/-- The display name read at the top of the per-entry loop of
`populate_calendars`: the `displayname` element's text, with the
`"<no name>"` default. -/
def displayNameOf (rep : XElem) : String :=
  ((findElem rep "displayname").map XElem.text).getD "<no name>"

/-- The tail of the per-entry loop of `populate_calendars`
(`src/client.rs:187-196`): run `SupportedComponents::try_from` on the
component-set element; on error skip the entry (with a warning), on success
build the `RemoteCalendar` record. -/
def finishEntry (displayName : String) (calUrl : Url) (comps : XElem) :
    Option (Url × RemoteCalendar) :=
  match SupportedComponents.tryFrom comps with
  | .error _ => none
  | .ok sc => some (calUrl, ⟨displayName, calUrl, sc⟩)

/-- One iteration of the `for rep in reps` loop of `populate_calendars`
(`src/client.rs:147-197`): `none` means the entry was skipped (`continue`),
`some (key, calendar)` means the entry is inserted into the map. -/
def processEntry (baseUrl : Url) (rep : XElem) : Option (Url × RemoteCalendar) :=
  match findElem rep "resourcetype" with
  | none => none
  | some resourceTypes =>
    if resourceTypes.children.any (fun rt => rt.name == "calendar") then
      match findElem rep "supported-calendar-component-set" with
      | none => none
      | some elSupportedComps =>
        if elSupportedComps.children.length == 0 then none
        else
          match findElem rep "href" with
          | none => none
          | some h =>
            finishEntry (displayNameOf rep) (baseUrl.setPath h.text) elSupportedComps
    else none

/-- The accumulator form of the entry loop: fold the entries into a map. -/
def buildCalendarsFrom (baseUrl : Url) (m : CalMap) (entries : List XElem) : CalMap :=
  entries.foldl
    (fun m rep =>
      match processEntry baseUrl rep with
      | none => m
      | some (k, c) => insertAssoc m k c)
    m

/-- The complete entry loop of `populate_calendars`: starting from the empty
map, process every `<response>` entry in order. -/
def buildCalendars (baseUrl : Url) (entries : List XElem) : CalMap :=
  buildCalendarsFrom baseUrl [] entries

/-- Result of running a fallible piece of Rust: a returned value, a returned
error (`Err`), or a panic (`unwrap()` on `None`/`Err`, or `todo!`). -/
inductive Outcome (α : Type) where
  | ok (a : α)
  | err (msg : String)
  | panic
deriving DecidableEq, Repr

/-- The `for item in items { current_element = find_elem(..).unwrap() }` loop
of `sub_request_and_process` (`src/client.rs:102-105`): follow the chain of
element names, panicking on a missing element, and return the final
element's text. -/
def navigate (e : XElem) : List String → Outcome String
  | [] => .ok e.text
  | item :: rest =>
    match findElem e item with
    | none => .panic
    | some e2 => navigate e2 rest

/-- `sub_request_and_process` (`src/client.rs:98-106`) applied to the
server's response document; `none` stands for a response body that is not
parsable as XML, on which `text.parse().unwrap()` panics. -/
def subRequestAndProcess (doc : Option XElem) (items : List String) :
    Outcome String :=
  match doc with
  | none => .panic
  | some root => navigate root items

/-- The `CachedReplies` struct of `src/client.rs`: the interior-mutable cache
of a `Client`.  `CachedReplies::default()` has every field `None`. -/
structure CachedReplies where
  principal : Option Url
  calendarHomeSet : Option Url
  calendars : Option CalMap
deriving Repr

/-- `CachedReplies::default()`: the cache of a freshly constructed client. -/
def CachedReplies.init : CachedReplies :=
  ⟨none, none, none⟩

/-- How many PROPFIND requests of each discovery stage the client has sent;
instrumentation of `sub_request`, used to state the memoization claims. -/
structure FetchCount where
  stage1 : Nat
  stage2 : Nat
  stage3 : Nat
deriving DecidableEq, Repr

/-- The server, seen through `sub_request`: for each of the three fixed
request bodies, the response document returned for a given URL (`none`
standing for a body that does not parse as XML). -/
structure Server where
  stage1 : Url → Option XElem
  stage2 : Url → Option XElem
  stage3 : Url → Option XElem

/-- `Client::get_principal` (`src/client.rs:109-121`): return the cached
principal URL if present; otherwise send the stage-1 PROPFIND to the base
URL, extract `current-user-principal`/`href`, resolve it with `set_path`
against the base URL, and cache it. -/
def getPrincipalOp (srv : Server) (baseUrl : Url) (st : CachedReplies)
    (fc : FetchCount) : Outcome Url × CachedReplies × FetchCount :=
  match st.principal with
  | some p => (.ok p, st, fc)
  | none =>
    let fc1 := { fc with stage1 := fc.stage1 + 1 }
    match subRequestAndProcess (srv.stage1 baseUrl)
        ["current-user-principal", "href"] with
    | .ok href =>
      let principalUrl := baseUrl.setPath href
      (.ok principalUrl, { st with principal := some principalUrl }, fc1)
    | .err e => (.err e, st, fc1)
    | .panic => (.panic, st, fc1)

/-- `Client::get_cal_home_set` (`src/client.rs:124-137`): return the cached
home-set URL if present; otherwise obtain the principal URL, send the
stage-2 PROPFIND to it, extract `calendar-home-set`/`href`, resolve it
against the base URL, and cache it. -/
def getCalHomeSetOp (srv : Server) (baseUrl : Url) (st : CachedReplies)
    (fc : FetchCount) : Outcome Url × CachedReplies × FetchCount :=
  match st.calendarHomeSet with
  | some h => (.ok h, st, fc)
  | none =>
    match getPrincipalOp srv baseUrl st fc with
    | (.ok principalUrl, st1, fc1) =>
      let fc2 := { fc1 with stage2 := fc1.stage2 + 1 }
      match subRequestAndProcess (srv.stage2 principalUrl)
          ["calendar-home-set", "href"] with
      | .ok href =>
        let chsUrl := baseUrl.setPath href
        (.ok chsUrl, { st1 with calendarHomeSet := some chsUrl }, fc2)
      | .err e => (.err e, st1, fc2)
      | .panic => (.panic, st1, fc2)
    | (.err e, st1, fc1) => (.err e, st1, fc1)
    | (.panic, st1, fc1) => (.panic, st1, fc1)

/-- `Client::populate_calendars` (`src/client.rs:139-202`): obtain the
home-set URL, send the depth-1 stage-3 PROPFIND to it (`text.parse().unwrap()`
panics on an unparsable body), run the per-entry loop over every
`<response>` element, and overwrite the cached calendar map. -/
def populateCalendarsOp (srv : Server) (baseUrl : Url) (st : CachedReplies)
    (fc : FetchCount) : Outcome Unit × CachedReplies × FetchCount :=
  match getCalHomeSetOp srv baseUrl st fc with
  | (.ok calHomeSet, st1, fc1) =>
    let fc2 := { fc1 with stage3 := fc1.stage3 + 1 }
    match srv.stage3 calHomeSet with
    | none => (.panic, st1, fc2)
    | some root =>
      let calendars := buildCalendars baseUrl (findElems root "response")
      (.ok (), { st1 with calendars := some calendars }, fc2)
  | (.err e, st1, fc1) => (.err e, st1, fc1)
  | (.panic, st1, fc1) => (.panic, st1, fc1)

/-- `Client::get_calendars` (`src/client.rs:208-217`): unconditionally run
`populate_calendars`, then return the cached calendar map. -/
def getCalendarsOp (srv : Server) (baseUrl : Url) (st : CachedReplies)
    (fc : FetchCount) : Outcome CalMap × CachedReplies × FetchCount :=
  match populateCalendarsOp srv baseUrl st fc with
  | (.ok _, st1, fc1) =>
    match st1.calendars with
    | some cals => (.ok cals, st1, fc1)
    | none => (.err "No calendars available", st1, fc1)
  | (.err e, st1, fc1) => (.err e, st1, fc1)
  | (.panic, st1, fc1) => (.panic, st1, fc1)

/-- `Client::get_calendar` (`src/client.rs:220-226`): a pure read of the
cached calendar map — no request is sent and the cache is not written. -/
def getCalendarOp (st : CachedReplies) (fc : FetchCount) (id : Url) :
    Option RemoteCalendar × CachedReplies × FetchCount :=
  (st.calendars.bind (fun cals => lookupAssoc cals id), st, fc)

/-- Modelled from the spec: the `Task` item variant (`src/data/task.rs`, not
under `src/`): "variant Task holds a name string and a completed flag",
with an "opaque ItemId chosen at creation". -/
structure Task where
  id : String
  name : String
  completed : Bool
deriving DecidableEq, Repr

/-- The `Calendar` struct of `src/data/calendar.rs`: display name, URL
(the identifier), supported components, and the task collection. -/
structure Calendar where
  name : String
  url : Url
  supportedComponents : SupportedComponents
  tasks : List Task
deriving DecidableEq, Repr

/-- `Calendar::new` (`src/data/calendar.rs:58-63`): fixes name, URL and
supported components; the task list starts empty. -/
def Calendar.new (name : String) (url : Url)
    (supportedComponents : SupportedComponents) : Calendar :=
  ⟨name, url, supportedComponents, []⟩

/-- `Calendar::task_by_id_mut` (`src/data/calendar.rs:75-78`): the body is
`todo!()`, which panics before the trailing `&mut self.tasks[0]` is ever
reached, so the call panics for every input and mutates nothing. -/
def Calendar.taskByIdMut (_c : Calendar) (_id : String) :
    Outcome (Task × Calendar) :=
  .panic

/-- The public operations of `Calendar` (`src/data/calendar.rs:65-78`). -/
inductive CalOp where
  | getName
  | getTasks
  | taskByIdMut (id : String)

/-- Result a `Calendar` operation hands back to the caller. -/
inductive CalOpResult where
  | nameRes (s : String)
  | tasksRes (ts : List Task)
  | panicked
deriving Repr

/-- Run one public operation on a `Calendar`: `name` and `tasks` are `&self`
reads and return the calendar unchanged; `task_by_id_mut` panics without
mutating. -/
def Calendar.runOp (c : Calendar) : CalOp → CalOpResult × Calendar
  | .getName => (.nameRes c.name, c)
  | .getTasks => (.tasksRes c.tasks, c)
  | .taskByIdMut i =>
    match c.taskByIdMut i with
    | .ok (t, c2) => (.tasksRes [t], c2)
    | .err _ => (.panicked, c)
    | .panic => (.panicked, c)

/-- The calendar state reached after a sequence of public operations. -/
def Calendar.runOps (c : Calendar) (ops : List CalOp) : Calendar :=
  ops.foldl (fun c op => (c.runOp op).2) c

/-- Modelled from the spec: the `SyncStatus` state machine (§3, §4.4; the
type lives outside `src/`): `NotSynced`, `Synced(token)`,
`LocallyModified(token)`, `LocallyDeleted(token)`, with an opaque comparable
token. -/
inductive SyncStatus where
  | notSynced
  | synced (token : Nat)
  | locallyModified (token : Nat)
  | locallyDeleted (token : Nat)
deriving DecidableEq, Repr

/-- Spec §4.3 step 3: "changed" means NotSynced/LocallyModified/
LocallyDeleted; "unchanged" means Synced. -/
def SyncStatus.isChanged : SyncStatus → Bool
  | .synced _ => false
  | _ => true

/-- A pending local deletion. -/
def SyncStatus.isDeleted : SyncStatus → Bool
  | .locallyDeleted _ => true
  | _ => false

/-- Modelled from the spec: the content of a Task item that the
reconciliation compares — "local and remote values (name, completed flag)". -/
structure TaskContent where
  name : String
  completed : Bool
deriving DecidableEq, Repr

/-- One side's view of a single ItemId: absent, or present with content and
a `SyncStatus`. -/
inductive SideState where
  | absent
  | present (content : TaskContent) (status : SyncStatus)
deriving DecidableEq, Repr

/-- Modelled from the spec: the per-item decision procedure of `sync()`
(§4.3 decision table; `Provider::sync` is not under `src/`).  Given the
(local, remote) pair for one ItemId, produce the (local, remote) pair after
reconciliation; `tok` is the fresh version token written on both sides.
New items are created on the other side; one-sided changes are pushed or
pulled; on a both-sides conflict remote wins unconditionally; deletions
converge to absence on both sides. -/
def syncItem (tok : Nat) : SideState → SideState → SideState × SideState
  | .absent, .absent => (.absent, .absent)
  | .present c st, .absent =>
    if st = .notSynced then
      (.present c (.synced tok), .present c (.synced tok))
    else
      (.absent, .absent)
  | .absent, .present c st =>
    if st = .notSynced then
      (.present c (.synced tok), .present c (.synced tok))
    else
      (.absent, .absent)
  | .present cl sl, .present cr sr =>
    if sl.isChanged then
      if sr.isChanged then
        if sr.isDeleted then (.absent, .absent)
        else (.present cr (.synced tok), .present cr (.synced tok))
      else
        if sl.isDeleted then (.absent, .absent)
        else (.present cl (.synced tok), .present cl (.synced tok))
    else
      if sr.isChanged then
        if sr.isDeleted then (.absent, .absent)
        else (.present cr (.synced tok), .present cr (.synced tok))
      else (.present cl sl, .present cr sr)

/-! Concrete values used to evaluate the definitions on small inputs. -/

/-- A concrete base URL for a client. -/
def demoBase : Url := ⟨"http://example.com", "/"⟩

/-- A stage-1 response carrying a `current-user-principal`/`href`. -/
def demoStage1Doc : XElem :=
  .node "multistatus" []
    [.node "current-user-principal" [] [.node "href" [] [] "/principal/"] ""] ""

/-- A stage-2 response carrying a `calendar-home-set`/`href`. -/
def demoStage2Doc : XElem :=
  .node "multistatus" []
    [.node "calendar-home-set" [] [.node "href" [] [] "/cal/"] ""] ""

/-- A stage-3 response with no `<response>` entries. -/
def demoStage3Doc : XElem := .node "multistatus" [] [] ""

/-- A server that answers every discovery request with a parsable document. -/
def demoServer : Server where
  stage1 := fun _ => some demoStage1Doc
  stage2 := fun _ => some demoStage2Doc
  stage3 := fun _ => some demoStage3Doc

/-- The first `get_calendars` call on a fresh client against `demoServer`. -/
def demoRun1 : Outcome CalMap × CachedReplies × FetchCount :=
  getCalendarsOp demoServer demoBase CachedReplies.init ⟨0, 0, 0⟩

/-- A second `get_calendars` call, continuing from the first one's state. -/
def demoRun2 : Outcome CalMap × CachedReplies × FetchCount :=
  getCalendarsOp demoServer demoBase demoRun1.2.1 demoRun1.2.2

/-- A cache that already holds a principal URL and a home-set URL. -/
def demoCachedState : CachedReplies :=
  ⟨some ⟨"http://example.com", "/principal/"⟩,
   some ⟨"http://example.com", "/cal/"⟩, none⟩

/-- A stage-3 `<response>` entry that survives every filter: it has an
`href`, a `displayname`, a calendar `resourcetype`, and a non-empty
`supported-calendar-component-set` with a `VTODO` component. -/
def demoRep : XElem :=
  .node "response" []
    [ .node "href" [] [] "/cal/main/"
    , .node "propstat" []
        [ .node "prop" []
            [ .node "displayname" [] [] "My list"
            , .node "resourcetype" []
                [.node "collection" [] [] "", .node "calendar" [] [] ""] ""
            , .node "supported-calendar-component-set" []
                [.node "comp" [("name", "VTODO")] [] ""] ""
            ] ""
        ] ""
    ] ""

/-- The resolved URL of `demoRep` against `demoBase`. -/
def demoCalUrl : Url := ⟨"http://example.com", "/cal/main/"⟩

/-- The calendar record `demoRep` produces. -/
def demoCal : RemoteCalendar :=
  { name := "My list", url := demoCalUrl, supportedComponents := ⟨false, true⟩ }

/-- A stage-3 `<response>` entry with no `resourcetype` element. -/
def demoBadRep : XElem := .node "response" [] [] ""

/-- An element that is not a `supported-calendar-component-set`. -/
def demoBadComps : XElem := .node "prop" [] [] ""

/-- A component-set element with one recognized (`VEVENT`) and one unknown
(`VJOURNAL`) component, plus a child with no `name` attribute. -/
def demoComps : XElem :=
  .node "supported-calendar-component-set" []
    [ .node "comp" [("name", "VEVENT")] [] ""
    , .node "comp" [("name", "VJOURNAL")] [] ""
    , .node "comp" [] [] ""
    ] ""

/-- A parsable response document that lacks the required element. -/
def demoEmptyDoc : XElem := .node "multistatus" [] [] ""

/-! Theorems. -/

/-- A single public `Calendar` operation leaves the `url` field unchanged. -/
theorem Calendar.runOp_url (c : Calendar) (op : CalOp) :
    ((c.runOp op).2).url = c.url := by
  cases op <;> simp [Calendar.runOp, Calendar.taskByIdMut]

/-- Any sequence of public `Calendar` operations leaves `url` unchanged. -/
theorem Calendar.runOps_url (ops : List CalOp) :
    ∀ c : Calendar, (c.runOps ops).url = c.url := by
  induction ops with
  | nil => intro c; rfl
  | cons op rest ih =>
    intro c
    have h1 : c.runOps (op :: rest) = ((c.runOp op).2).runOps rest := rfl
    rw [h1, ih, Calendar.runOp_url]

/-- Claim C5: for every `Calendar` value and every public operation on it
(`name`, `tasks`, `task_by_id_mut` and any sequence thereof), the
calendar's identifier — its `url` field, fixed at `Calendar::new` — is the
same after the operation as before; no operation changes it after
creation. -/
theorem calendar_url_invariant :
    (∀ (c : Calendar) (op : CalOp), ((c.runOp op).2).url = c.url) ∧
    (∀ (n : String) (u : Url) (sc : SupportedComponents) (ops : List CalOp),
      ((Calendar.new n u sc).runOps ops).url = u) := by
  refine ⟨Calendar.runOp_url, fun n u sc ops => ?_⟩
  rw [Calendar.runOps_url]
  rfl

/-- Claim C9: `Calendar::task_by_id_mut` panics for every input — its body
is `todo!()` — and never returns a mutable task view, even when a task with
that id is present. -/
theorem task_by_id_mut_always_panics :
    (∀ (c : Calendar) (id : String), c.taskByIdMut id = Outcome.panic) ∧
    (∀ (c : Calendar) (id : String) (t : Task × Calendar),
      c.taskByIdMut id ≠ Outcome.ok t) := by
  refine ⟨fun _ _ => rfl, fun c id t h => ?_⟩
  simp [Calendar.taskByIdMut] at h

/-- Claim C1: for an item whose content changed on both sides since the last
sync (neither side a deletion on the remote), reconciliation leaves the
remote side's current content on both sides, freshly `Synced`; the
local-only edit is discarded. -/
theorem sync_conflict_remote_wins (tok : ℕ) (cl cr : TaskContent)
    (sl sr : SyncStatus) (hl : sl.isChanged = true) (hr : sr.isChanged = true)
    (hrd : sr.isDeleted = false) :
    syncItem tok (.present cl sl) (.present cr sr)
      = (.present cr (.synced tok), .present cr (.synced tok)) := by
  simp [syncItem, hl, hr, hrd]

/-- Witness for C1: the spec's scenario — renamed to `F'` remotely and `F''`
locally — resolves to `F'` on both sides. -/
theorem sync_conflict_remote_wins_witness :
    syncItem 1 (.present ⟨"task F''", false⟩ (.locallyModified 0))
        (.present ⟨"task F'", false⟩ (.locallyModified 0))
      = (.present ⟨"task F'", false⟩ (.synced 1),
         .present ⟨"task F'", false⟩ (.synced 1)) :=
  sync_conflict_remote_wins 1 ⟨"task F''", false⟩ ⟨"task F'", false⟩
    (.locallyModified 0) (.locallyModified 0) rfl rfl rfl

/-- Counterexample for C3: on an unparsable response document,
`sub_request_and_process` panics (`text.parse().unwrap()`) instead of
returning an error value to the caller. -/
theorem stage12_unparsable_counterexample :
    subRequestAndProcess none ["current-user-principal", "href"]
      = Outcome.panic := rfl

/-- Claim C3 (amended): when the stage-1/2 response document is unparsable,
or the required element is absent, the discovery call panics — it does not
return a success value, but it also does not return an error: the failure
is a panic, not a `ProtocolError`-style returned error. -/
theorem stage12_failure_panics :
    (∀ items : List String, subRequestAndProcess none items = Outcome.panic) ∧
    (∀ (root : XElem) (item : String) (rest : List String),
      findElem root item = none →
      subRequestAndProcess (some root) (item :: rest) = Outcome.panic) ∧
    (∀ (e : XElem) (item : String) (rest : List String),
      findElem e item = none → navigate e (item :: rest) = Outcome.panic) := by
  refine ⟨fun _ => rfl, fun root item rest h => ?_, fun e item rest h => ?_⟩
  · simp [subRequestAndProcess, navigate, h]
  · simp [navigate, h]

/-- Witness for C3: a parsable document that lacks
`current-user-principal` makes the stage-1 call panic. -/
theorem stage12_failure_panics_witness :
    findElem demoEmptyDoc "current-user-principal" = none ∧
    subRequestAndProcess (some demoEmptyDoc) ["current-user-principal", "href"]
      = Outcome.panic :=
  ⟨rfl, stage12_failure_panics.2.1 demoEmptyDoc "current-user-principal" ["href"] rfl⟩

/-- One loop iteration of `try_from` sets the Event flag exactly when it was
already set or the child's `name` attribute is `VEVENT`. -/
theorem SupportedComponents.step_event (flags : SupportedComponents) (child : XElem) :
    (SupportedComponents.step flags child).event
      = (flags.event || (child.attr "name" == some "VEVENT")) := by
  unfold SupportedComponents.step
  cases h : child.attr "name" with
  | none => simp
  | some s =>
    by_cases h1 : s = "VEVENT"
    · subst h1; simp
    · by_cases h2 : s = "VTODO" <;> simp [h1, h2]

/-- One loop iteration of `try_from` sets the Todo flag exactly when it was
already set or the child's `name` attribute is `VTODO`. -/
theorem SupportedComponents.step_todo (flags : SupportedComponents) (child : XElem) :
    (SupportedComponents.step flags child).todo
      = (flags.todo || (child.attr "name" == some "VTODO")) := by
  unfold SupportedComponents.step
  cases h : child.attr "name" with
  | none => simp
  | some s =>
    by_cases h1 : s = "VEVENT"
    · subst h1; simp
    · by_cases h2 : s = "VTODO" <;> simp [h1, h2]

/-- The whole `try_from` loop: the Event flag of the result. -/
theorem SupportedComponents.foldl_step_event (l : List XElem) :
    ∀ init : SupportedComponents,
      (l.foldl SupportedComponents.step init).event
        = (init.event || l.any (fun c => c.attr "name" == some "VEVENT")) := by
  induction l with
  | nil => intro init; simp
  | cons c cs ih =>
    intro init
    simp [List.foldl_cons, List.any_cons, ih, SupportedComponents.step_event,
      Bool.or_assoc]

/-- The whole `try_from` loop: the Todo flag of the result. -/
theorem SupportedComponents.foldl_step_todo (l : List XElem) :
    ∀ init : SupportedComponents,
      (l.foldl SupportedComponents.step init).todo
        = (init.todo || l.any (fun c => c.attr "name" == some "VTODO")) := by
  induction l with
  | nil => intro init; simp
  | cons c cs ih =>
    intro init
    simp [List.foldl_cons, List.any_cons, ih, SupportedComponents.step_todo,
      Bool.or_assoc]

/-- Claim C6: on a structurally valid `supported-calendar-component-set`
element, `SupportedComponents::try_from` returns `Ok` with the Event flag
set iff some child has `name="VEVENT"` and the Todo flag set iff some child
has `name="VTODO"`; any other `name` value is ignored and never causes the
conversion to fail. -/
theorem try_from_flags (el : XElem)
    (h : el.name = "supported-calendar-component-set") :
    ∃ flags, SupportedComponents.tryFrom el = .ok flags ∧
      (flags.event = true ↔ ∃ c ∈ el.children, c.attr "name" = some "VEVENT") ∧
      (flags.todo = true ↔ ∃ c ∈ el.children, c.attr "name" = some "VTODO") := by
  refine ⟨el.children.foldl SupportedComponents.step SupportedComponents.empty,
    ?_, ?_, ?_⟩
  · simp [SupportedComponents.tryFrom, h]
  · rw [SupportedComponents.foldl_step_event]
    simp [SupportedComponents.empty, List.any_eq_true]
  · rw [SupportedComponents.foldl_step_todo]
    simp [SupportedComponents.empty, List.any_eq_true]

/-- Witness for C6: a component set listing `VEVENT`, an unknown
`VJOURNAL`, and a child with no `name` attribute converts to
`Ok` with exactly the Event flag. -/
theorem try_from_flags_witness :
    demoComps.name = "supported-calendar-component-set" ∧
    ∃ flags, SupportedComponents.tryFrom demoComps = .ok flags ∧
      (flags.event = true ↔ ∃ c ∈ demoComps.children, c.attr "name" = some "VEVENT") ∧
      (flags.todo = true ↔ ∃ c ∈ demoComps.children, c.attr "name" = some "VTODO") :=
  ⟨rfl, try_from_flags demoComps rfl⟩

/-- Folding entries over an appended list processes the first block first. -/
theorem buildCalendarsFrom_append (base : Url) (m : CalMap)
    (xs ys : List XElem) :
    buildCalendarsFrom base m (xs ++ ys)
      = buildCalendarsFrom base (buildCalendarsFrom base m xs) ys := by
  simp [buildCalendarsFrom, List.foldl_append]

/-- An entry the per-entry loop skips contributes nothing to the map:
removing it from the entry list leaves the result unchanged. -/
theorem buildCalendarsFrom_skip (base : Url) (rep : XElem)
    (hrep : processEntry base rep = none) (m : CalMap) (xs ys : List XElem) :
    buildCalendarsFrom base m (xs ++ rep :: ys)
      = buildCalendarsFrom base m (xs ++ ys) := by
  rw [buildCalendarsFrom_append, buildCalendarsFrom_append]
  simp [buildCalendarsFrom, List.foldl_cons, hrep]

/-- Claim C2: a stage-3 child entry with no `resourcetype`, or whose
`resourcetype` has no `calendar` child, or with no
`supported-calendar-component-set`, or whose component set has zero
children, or with no `href`, contributes no calendar to the discovered map;
skipping it does not abort the loop and leaves every other entry's
contribution unchanged. -/
theorem discovery_entry_filter (base : Url) (rep : XElem)
    (h : findElem rep "resourcetype" = none
      ∨ (∃ rt, findElem rep "resourcetype" = some rt ∧
          ∀ c ∈ rt.children, c.name ≠ "calendar")
      ∨ findElem rep "supported-calendar-component-set" = none
      ∨ (∃ comps, findElem rep "supported-calendar-component-set" = some comps ∧
          comps.children = [])
      ∨ findElem rep "href" = none) :
    processEntry base rep = none ∧
      ∀ xs ys, buildCalendars base (xs ++ rep :: ys)
        = buildCalendars base (xs ++ ys) := by
  have hnone : processEntry base rep = none := by
    rcases h with h | ⟨rt, hrt, hcal⟩ | h | ⟨comps, hcomps, hchil⟩ | h
    · simp [processEntry, h]
    · have hany : (rt.children.any fun c => c.name == "calendar") = false := by
        rw [List.any_eq_false]
        intro c hc
        simpa using hcal c hc
      simp [processEntry, hrt, hany]
    · cases h1 : findElem rep "resourcetype" <;> simp [processEntry, h1, h]
    · cases h1 : findElem rep "resourcetype" <;>
        simp [processEntry, h1, hcomps, hchil]
    · cases h1 : findElem rep "resourcetype" with
      | none => simp [processEntry, h1]
      | some rt =>
        cases h2 : findElem rep "supported-calendar-component-set" with
        | none => simp [processEntry, h1, h2]
        | some comps => simp [processEntry, h1, h2, h]
  exact ⟨hnone, fun xs ys => buildCalendarsFrom_skip base rep hnone [] xs ys⟩

/-- Witness for C2: an entry with no `resourcetype` is skipped. -/
theorem discovery_entry_filter_witness :
    findElem demoBadRep "resourcetype" = none ∧
    processEntry demoBase demoBadRep = none :=
  ⟨rfl, (discovery_entry_filter demoBase demoBadRep (Or.inl rfl)).1⟩

/-- Claim C7: `SupportedComponents::try_from` fails exactly when the
element's local name is not `supported-calendar-component-set`; during
stage-3 discovery an entry whose component set fails that parsing is
skipped (producing no calendar), and an entry the loop skips leaves every
other entry's contribution unchanged. -/
theorem try_from_error_and_skip :
    (∀ el : XElem,
      SupportedComponents.tryFrom el
          = .error "Element must be a <supported-calendar-component-set>"
        ↔ el.name ≠ "supported-calendar-component-set") ∧
    (∀ el : XElem, (∃ flags, SupportedComponents.tryFrom el = .ok flags)
        ↔ el.name = "supported-calendar-component-set") ∧
    (∀ (displayName : String) (calUrl : Url) (comps : XElem) (e : String),
      SupportedComponents.tryFrom comps = .error e →
      finishEntry displayName calUrl comps = none) ∧
    (∀ (base : Url) (rep : XElem) (xs ys : List XElem),
      processEntry base rep = none →
      buildCalendars base (xs ++ rep :: ys) = buildCalendars base (xs ++ ys)) := by
  refine ⟨fun el => ?_, fun el => ?_, fun displayName calUrl comps e h => ?_,
    fun base rep xs ys h => buildCalendarsFrom_skip base rep h [] xs ys⟩
  · unfold SupportedComponents.tryFrom
    by_cases h : el.name = "supported-calendar-component-set" <;> simp [h]
  · unfold SupportedComponents.tryFrom
    by_cases h : el.name = "supported-calendar-component-set" <;> simp [h]
  · simp [finishEntry, h]

/-- Witness for C7: an element named `prop` fails `try_from`, and the entry
tail of the loop then produces no calendar from it. -/
theorem try_from_error_and_skip_witness :
    SupportedComponents.tryFrom demoBadComps
      = .error "Element must be a <supported-calendar-component-set>" ∧
    finishEntry "x" demoBase demoBadComps = none := by
  have h : SupportedComponents.tryFrom demoBadComps
      = .error "Element must be a <supported-calendar-component-set>" :=
    (try_from_error_and_skip.1 demoBadComps).mpr (by simp [demoBadComps, XElem.name])
  exact ⟨h, try_from_error_and_skip.2.2.1 "x" demoBase demoBadComps _ h⟩

/-- With a cached principal URL, `get_principal` answers from the cache:
no request, no state change. -/
theorem getPrincipalOp_cached (srv : Server) (base : Url) (st : CachedReplies)
    (fc : FetchCount) (p : Url) (h : st.principal = some p) :
    getPrincipalOp srv base st fc = (.ok p, st, fc) := by
  simp [getPrincipalOp, h]

/-- With a cached home-set URL, `get_cal_home_set` answers from the cache:
no request, no state change. -/
theorem getCalHomeSetOp_cached (srv : Server) (base : Url) (st : CachedReplies)
    (fc : FetchCount) (h : Url) (hc : st.calendarHomeSet = some h) :
    getCalHomeSetOp srv base st fc = (.ok h, st, fc) := by
  simp [getCalHomeSetOp, hc]

/-- `get_principal` on an empty cache: the stage-1 fetch happens. -/
theorem getPrincipalOp_uncached (srv : Server) (base : Url)
    (st : CachedReplies) (fc : FetchCount) (hp : st.principal = none) :
    getPrincipalOp srv base st fc =
      match subRequestAndProcess (srv.stage1 base)
          ["current-user-principal", "href"] with
      | .ok href => (.ok (base.setPath href),
          { st with principal := some (base.setPath href) },
          { fc with stage1 := fc.stage1 + 1 })
      | .err e => (.err e, st, { fc with stage1 := fc.stage1 + 1 })
      | .panic => (.panic, st, { fc with stage1 := fc.stage1 + 1 }) := by
  simp [getPrincipalOp, hp]

/-- A successful `get_principal` leaves the returned URL in the cache. -/
theorem getPrincipalOp_caches (srv : Server) (base : Url) (st : CachedReplies)
    (fc : FetchCount) (p : Url) (h : (getPrincipalOp srv base st fc).1 = .ok p) :
    (getPrincipalOp srv base st fc).2.1.principal = some p := by
  cases hp : st.principal with
  | some p0 =>
    rw [getPrincipalOp_cached srv base st fc p0 hp] at h ⊢
    simp at h
    simp [hp, h]
  | none =>
    rw [getPrincipalOp_uncached srv base st fc hp] at h ⊢
    cases hs : subRequestAndProcess (srv.stage1 base)
        ["current-user-principal", "href"] with
    | ok href =>
      rw [hs] at h
      simp at h ⊢
      exact h
    | err e => rw [hs] at h; simp at h
    | panic => rw [hs] at h; simp at h

/-- `get_cal_home_set` on a cache with no home-set URL: obtain the
principal, then run the stage-2 fetch. -/
theorem getCalHomeSetOp_uncached (srv : Server) (base : Url)
    (st : CachedReplies) (fc : FetchCount) (hh : st.calendarHomeSet = none)
    (p : Url) (st1 : CachedReplies) (fc1 : FetchCount)
    (hgp : getPrincipalOp srv base st fc = (.ok p, st1, fc1)) :
    getCalHomeSetOp srv base st fc =
      match subRequestAndProcess (srv.stage2 p)
          ["calendar-home-set", "href"] with
      | .ok href => (.ok (base.setPath href),
          { st1 with calendarHomeSet := some (base.setPath href) },
          { fc1 with stage2 := fc1.stage2 + 1 })
      | .err e => (.err e, st1, { fc1 with stage2 := fc1.stage2 + 1 })
      | .panic => (.panic, st1, { fc1 with stage2 := fc1.stage2 + 1 }) := by
  simp [getCalHomeSetOp, hh, hgp]

/-- A successful `get_cal_home_set` leaves the returned URL in the cache. -/
theorem getCalHomeSetOp_caches (srv : Server) (base : Url) (st : CachedReplies)
    (fc : FetchCount) (h : Url)
    (hr : (getCalHomeSetOp srv base st fc).1 = .ok h) :
    (getCalHomeSetOp srv base st fc).2.1.calendarHomeSet = some h := by
  cases hh : st.calendarHomeSet with
  | some h0 =>
    rw [getCalHomeSetOp_cached srv base st fc h0 hh] at hr ⊢
    simp at hr
    simp [hh, hr]
  | none =>
    rcases hgp : getPrincipalOp srv base st fc with ⟨r, st1, fc1⟩
    cases r with
    | ok p =>
      rw [getCalHomeSetOp_uncached srv base st fc hh p st1 fc1 hgp] at hr ⊢
      cases hs : subRequestAndProcess (srv.stage2 p)
          ["calendar-home-set", "href"] with
      | ok href =>
        rw [hs] at hr
        simp at hr ⊢
        exact hr
      | err e => rw [hs] at hr; simp at hr
      | panic => rw [hs] at hr; simp at hr
    | err e =>
      have hrw : getCalHomeSetOp srv base st fc = (.err e, st1, fc1) := by
        simp [getCalHomeSetOp, hh, hgp]
      rw [hrw] at hr
      simp at hr
    | panic =>
      have hrw : getCalHomeSetOp srv base st fc = (.panic, st1, fc1) := by
        simp [getCalHomeSetOp, hh, hgp]
      rw [hrw] at hr
      simp at hr

/-- With a cached home-set URL, every `get_calendars` call still sends one
stage-3 request: the calendar map is recomputed, not served from the
cache. -/
theorem getCalendarsOp_refetches (srv : Server) (base : Url)
    (st : CachedReplies) (fc : FetchCount) (h : Url)
    (hc : st.calendarHomeSet = some h) :
    (getCalendarsOp srv base st fc).2.2.stage3 = fc.stage3 + 1 := by
  unfold getCalendarsOp populateCalendarsOp
  rw [getCalHomeSetOp_cached srv base st fc h hc]
  cases h3 : srv.stage3 h with
  | none => simp [h3]
  | some root => simp [h3]

/-- Claim C4 (amended): the principal URL and the calendar-home-set URL are
each computed at most once per client instance — once cached, later calls
return the cached value with no further request and no state change.  The
calendar map is NOT memoized: every `get_calendars` call re-runs stage-3
discovery (one more stage-3 request) and overwrites the cached map. -/
theorem client_memoization :
    (∀ (srv : Server) (base : Url) (st : CachedReplies) (fc : FetchCount)
        (p : Url), st.principal = some p →
      getPrincipalOp srv base st fc = (.ok p, st, fc)) ∧
    (∀ (srv : Server) (base : Url) (st : CachedReplies) (fc : FetchCount)
        (h : Url), st.calendarHomeSet = some h →
      getCalHomeSetOp srv base st fc = (.ok h, st, fc)) ∧
    (∀ (srv : Server) (base : Url) (st : CachedReplies) (fc : FetchCount)
        (p : Url), (getPrincipalOp srv base st fc).1 = .ok p →
      (getPrincipalOp srv base st fc).2.1.principal = some p) ∧
    (∀ (srv : Server) (base : Url) (st : CachedReplies) (fc : FetchCount)
        (h : Url), (getCalHomeSetOp srv base st fc).1 = .ok h →
      (getCalHomeSetOp srv base st fc).2.1.calendarHomeSet = some h) ∧
    (∀ (srv : Server) (base : Url) (st : CachedReplies) (fc : FetchCount)
        (h : Url), st.calendarHomeSet = some h →
      (getCalendarsOp srv base st fc).2.2.stage3 = fc.stage3 + 1) :=
  ⟨getPrincipalOp_cached, getCalHomeSetOp_cached, getPrincipalOp_caches,
    getCalHomeSetOp_caches, getCalendarsOp_refetches⟩

/-- Counterexample for C4: two successive successful `get_calendars` calls
on one client send two stage-3 requests — the calendar map is recomputed
from the server on the second call instead of being served from the
cache. -/
theorem client_memoization_counterexample :
    demoRun1.1 = Outcome.ok [] ∧ demoRun2.1 = Outcome.ok [] ∧
    demoRun1.2.2 = (⟨1, 1, 1⟩ : FetchCount) ∧
    demoRun2.2.2 = (⟨1, 1, 2⟩ : FetchCount) := by
  exact ⟨rfl, rfl, rfl, rfl⟩

/-- Witness for C4 (amended): on a cache already holding the principal and
home-set URLs, `get_principal` answers from the cache with no request, and
a `get_calendars` call still sends a stage-3 request. -/
theorem client_memoization_witness :
    demoCachedState.principal = some ⟨"http://example.com", "/principal/"⟩ ∧
    getPrincipalOp demoServer demoBase demoCachedState ⟨0, 0, 0⟩
      = (.ok ⟨"http://example.com", "/principal/"⟩, demoCachedState, ⟨0, 0, 0⟩) ∧
    (getCalendarsOp demoServer demoBase demoCachedState ⟨0, 0, 0⟩).2.2.stage3 = 1 := by
  refine ⟨rfl, client_memoization.1 demoServer demoBase demoCachedState
    ⟨0, 0, 0⟩ _ rfl, ?_⟩
  have h := client_memoization.2.2.2.2 demoServer demoBase demoCachedState
    ⟨0, 0, 0⟩ ⟨"http://example.com", "/cal/"⟩ rfl
  simpa using h

/-- `get_principal` never touches the cached calendar map. -/
theorem getPrincipalOp_calendars (srv : Server) (base : Url)
    (st : CachedReplies) (fc : FetchCount) :
    (getPrincipalOp srv base st fc).2.1.calendars = st.calendars := by
  cases hp : st.principal with
  | some p => rw [getPrincipalOp_cached srv base st fc p hp]
  | none =>
    rw [getPrincipalOp_uncached srv base st fc hp]
    cases hs : subRequestAndProcess (srv.stage1 base)
        ["current-user-principal", "href"] <;> simp

/-- `get_cal_home_set` never touches the cached calendar map. -/
theorem getCalHomeSetOp_calendars (srv : Server) (base : Url)
    (st : CachedReplies) (fc : FetchCount) :
    (getCalHomeSetOp srv base st fc).2.1.calendars = st.calendars := by
  cases hh : st.calendarHomeSet with
  | some h => rw [getCalHomeSetOp_cached srv base st fc h hh]
  | none =>
    rcases hgp : getPrincipalOp srv base st fc with ⟨r, st1, fc1⟩
    have h1 : st1.calendars = st.calendars := by
      have h2 := getPrincipalOp_calendars srv base st fc
      rw [hgp] at h2
      exact h2
    cases r with
    | ok p =>
      rw [getCalHomeSetOp_uncached srv base st fc hh p st1 fc1 hgp]
      cases hs : subRequestAndProcess (srv.stage2 p)
          ["calendar-home-set", "href"] <;> simp [h1]
    | err e =>
      have hrw : getCalHomeSetOp srv base st fc = (.err e, st1, fc1) := by
        simp [getCalHomeSetOp, hh, hgp]
      rw [hrw]
      exact h1
    | panic =>
      have hrw : getCalHomeSetOp srv base st fc = (.panic, st1, fc1) := by
        simp [getCalHomeSetOp, hh, hgp]
      rw [hrw]
      exact h1

/-- A `populate_calendars` call that does not succeed leaves the cached
calendar map as it was: only the final successful write sets it. -/
theorem populateCalendarsOp_fail_calendars (srv : Server) (base : Url)
    (st : CachedReplies) (fc : FetchCount)
    (h : ∀ u, (populateCalendarsOp srv base st fc).1 ≠ Outcome.ok u) :
    (populateCalendarsOp srv base st fc).2.1.calendars = st.calendars := by
  unfold populateCalendarsOp at *
  rcases hch : getCalHomeSetOp srv base st fc with ⟨r, st1, fc1⟩
  have h1 : st1.calendars = st.calendars := by
    have h2 := getCalHomeSetOp_calendars srv base st fc
    rw [hch] at h2
    exact h2
  rw [hch] at h
  cases r with
  | ok chs =>
    cases h3 : srv.stage3 chs with
    | none => simp [h3, h1]
    | some root =>
      exfalso
      exact h () (by simp [h3])
  | err e => simpa using h1
  | panic => simpa using h1

/-- Claim C10: `Client::get_calendar` consults only the memoized cache —
it performs no request and writes nothing; when the cached calendar map is
absent (as on a fresh client, and after any sequence of
`get_principal`/`get_cal_home_set` calls and non-successful
`populate_calendars` calls, none of which set the map) it returns `None`. -/
theorem get_calendar_cache_only :
    (∀ (st : CachedReplies) (fc : FetchCount) (id : Url),
      st.calendars = none →
      (getCalendarOp st fc id).1 = none ∧
      (getCalendarOp st fc id).2.1 = st ∧ (getCalendarOp st fc id).2.2 = fc) ∧
    (∀ (st : CachedReplies) (fc : FetchCount) (id : Url),
      (getCalendarOp st fc id).2.1 = st ∧ (getCalendarOp st fc id).2.2 = fc) ∧
    (CachedReplies.init.calendars = none) ∧
    (∀ (srv : Server) (base : Url) (st : CachedReplies) (fc : FetchCount),
      (getPrincipalOp srv base st fc).2.1.calendars = st.calendars) ∧
    (∀ (srv : Server) (base : Url) (st : CachedReplies) (fc : FetchCount),
      (getCalHomeSetOp srv base st fc).2.1.calendars = st.calendars) ∧
    (∀ (srv : Server) (base : Url) (st : CachedReplies) (fc : FetchCount),
      (∀ u, (populateCalendarsOp srv base st fc).1 ≠ Outcome.ok u) →
      (populateCalendarsOp srv base st fc).2.1.calendars = st.calendars) := by
  refine ⟨fun st fc id h => ⟨?_, rfl, rfl⟩, fun st fc id => ⟨rfl, rfl⟩, rfl,
    getPrincipalOp_calendars, getCalHomeSetOp_calendars,
    populateCalendarsOp_fail_calendars⟩
  simp [getCalendarOp, h]

/-- Witness for C10: on a fresh client, `get_calendar` returns `None` and
changes neither the cache nor the request counts. -/
theorem get_calendar_cache_only_witness :
    CachedReplies.init.calendars = none ∧
    (getCalendarOp CachedReplies.init ⟨0, 0, 0⟩ demoCalUrl).1 = none ∧
    (getCalendarOp CachedReplies.init ⟨0, 0, 0⟩ demoCalUrl).2.1
      = CachedReplies.init ∧
    (getCalendarOp CachedReplies.init ⟨0, 0, 0⟩ demoCalUrl).2.2
      = (⟨0, 0, 0⟩ : FetchCount) :=
  ⟨rfl, (get_calendar_cache_only.1 CachedReplies.init ⟨0, 0, 0⟩ demoCalUrl rfl).1,
    (get_calendar_cache_only.1 CachedReplies.init ⟨0, 0, 0⟩ demoCalUrl rfl).2.1,
    (get_calendar_cache_only.1 CachedReplies.init ⟨0, 0, 0⟩ demoCalUrl rfl).2.2⟩

/-- Looking up a freshly inserted key yields the inserted calendar. -/
theorem lookupAssoc_insertAssoc_self (m : CalMap) (k : Url) (v : RemoteCalendar) :
    lookupAssoc (insertAssoc m k v) k = some v := by
  induction m with
  | nil => simp [insertAssoc, lookupAssoc]
  | cons p rest ih =>
    rcases p with ⟨k0, v0⟩
    by_cases h : k0 = k <;> simp [insertAssoc, lookupAssoc, h, ih]

/-- Inserting under one key does not change lookups under another. -/
theorem lookupAssoc_insertAssoc_ne (m : CalMap) (k k' : Url)
    (v : RemoteCalendar) (h : k' ≠ k) :
    lookupAssoc (insertAssoc m k v) k' = lookupAssoc m k' := by
  induction m with
  | nil => simp [insertAssoc, lookupAssoc, Ne.symm h]
  | cons p rest ih =>
    rcases p with ⟨k0, v0⟩
    by_cases h0 : k0 = k
    · subst h0
      simp [insertAssoc, lookupAssoc, Ne.symm h]
    · by_cases h1 : k0 = k' <;> simp [insertAssoc, lookupAssoc, h0, h1, ih, h]

/-- Folding the per-entry loop: if every entry that yields key `k` yields
the record `cal`, and either some entry yields `(k, cal)` or the
accumulator already maps `k` to `cal`, then the final map maps `k` to
`cal`. -/
theorem lookupAssoc_buildCalendarsFrom (base : Url) (k : Url)
    (cal : RemoteCalendar) :
    ∀ (entries : List XElem) (m : CalMap),
      (∀ rep' ∈ entries, ∀ cal',
        processEntry base rep' = some (k, cal') → cal' = cal) →
      ((∃ rep ∈ entries, processEntry base rep = some (k, cal)) ∨
        lookupAssoc m k = some cal) →
      lookupAssoc (buildCalendarsFrom base m entries) k = some cal := by
  intro entries
  induction entries with
  | nil =>
    intro m _ hsrc
    rcases hsrc with ⟨rep, hmem, _⟩ | hm
    · simp at hmem
    · simpa [buildCalendarsFrom] using hm
  | cons rep rest ih =>
    intro m huniq hsrc
    have hstep : buildCalendarsFrom base m (rep :: rest)
        = buildCalendarsFrom base
            (match processEntry base rep with
              | none => m
              | some (k', c') => insertAssoc m k' c') rest := by
      simp [buildCalendarsFrom]
    rw [hstep]
    have huniq' : ∀ rep' ∈ rest, ∀ cal',
        processEntry base rep' = some (k, cal') → cal' = cal :=
      fun rep' h' => huniq rep' (List.mem_cons_of_mem rep h')
    cases hpe : processEntry base rep with
    | none =>
      refine ih _ huniq' ?_
      rcases hsrc with ⟨rep0, hmem, hp0⟩ | hm
      · rcases List.mem_cons.mp hmem with rfl | hmem'
        · rw [hpe] at hp0; exact absurd hp0 (by simp)
        · exact Or.inl ⟨rep0, hmem', hp0⟩
      · exact Or.inr hm
    | some kc =>
      rcases kc with ⟨k', c'⟩
      by_cases hk : k' = k
      · subst hk
        have hc : c' = cal :=
          huniq rep (List.mem_cons_self rep rest) c' hpe
        subst hc
        exact ih _ huniq' (Or.inr (lookupAssoc_insertAssoc_self m k' c'))
      · refine ih _ huniq' ?_
        rcases hsrc with ⟨rep0, hmem, hp0⟩ | hm
        · rcases List.mem_cons.mp hmem with rfl | hmem'
          · rw [hpe] at hp0
            simp at hp0
            exact absurd hp0.1 hk
          · exact Or.inl ⟨rep0, hmem', hp0⟩
        · exact Or.inr
            ((lookupAssoc_insertAssoc_ne m k' k c' (Ne.symm hk)).trans hm)

/-- What a surviving stage-3 entry produces: its key is the entry's `href`
resolved against the base URL with `set_path`, the record's URL is that
key, its name is the entry's `displayname` (with the `"<no name>"`
default), and its flags are exactly the `Ok` result of
`SupportedComponents::try_from` on its component-set element. -/
theorem processEntry_some_spec (base : Url) (rep : XElem) (k : Url)
    (cal : RemoteCalendar) (h : processEntry base rep = some (k, cal)) :
    cal.url = k ∧ cal.name = displayNameOf rep ∧
    ∃ hrefEl comps, findElem rep "href" = some hrefEl ∧
      k = base.setPath hrefEl.text ∧
      findElem rep "supported-calendar-component-set" = some comps ∧
      SupportedComponents.tryFrom comps = .ok cal.supportedComponents := by
  unfold processEntry at h
  split at h
  · exact absurd h (by simp)
  · split at h
    · split at h
      · exact absurd h (by simp)
      · rename_i comps h2
        split at h
        · exact absurd h (by simp)
        · split at h
          · exact absurd h (by simp)
          · rename_i hrefEl h3
            unfold finishEntry at h
            split at h
            · exact absurd h (by simp)
            · rename_i sc h4
              simp only [Option.some.injEq, Prod.mk.injEq] at h
              obtain ⟨hk, hcal⟩ := h
              subst hk
              subst hcal
              exact ⟨rfl, rfl, hrefEl, comps, h3, rfl, h2, h4⟩
    · exact absurd h (by simp)

/-- Claim C8: every stage-3 entry that survives filtering is inserted into
the discovered map under its `href` resolved against the client's base URL,
with the entry's `displayname` as name and exactly the component flags
`try_from` produced; distinct surviving entries with distinct resolved URLs
all appear in the map. -/
theorem discovery_surviving_entries (base : Url) (entries : List XElem)
    (rep : XElem) (k : Url) (cal : RemoteCalendar) (hmem : rep ∈ entries)
    (hp : processEntry base rep = some (k, cal))
    (huniq : ∀ rep' ∈ entries, ∀ k' cal',
      processEntry base rep' = some (k', cal') → k' = k → cal' = cal) :
    lookupAssoc (buildCalendars base entries) k = some cal ∧
    cal.url = k ∧ cal.name = displayNameOf rep ∧
    ∃ hrefEl comps, findElem rep "href" = some hrefEl ∧
      k = base.setPath hrefEl.text ∧
      findElem rep "supported-calendar-component-set" = some comps ∧
      SupportedComponents.tryFrom comps = .ok cal.supportedComponents := by
  refine ⟨?_, processEntry_some_spec base rep k cal hp⟩
  exact lookupAssoc_buildCalendarsFrom base k cal entries []
    (fun rep' h' cal' hp' => huniq rep' h' k cal' hp' rfl)
    (Or.inl ⟨rep, hmem, hp⟩)

/-- Witness for C8: the surviving demo entry appears in the map at its
resolved URL with its display name and `VTODO`-only flags. -/
theorem discovery_surviving_entries_witness :
    demoRep ∈ [demoRep] ∧
    processEntry demoBase demoRep = some (demoCalUrl, demoCal) ∧
    lookupAssoc (buildCalendars demoBase [demoRep]) demoCalUrl
      = some demoCal := by
  have h1 : demoRep ∈ [demoRep] := List.mem_singleton.mpr rfl
  have h2 : processEntry demoBase demoRep = some (demoCalUrl, demoCal) := rfl
  have huniq : ∀ rep' ∈ [demoRep], ∀ k' cal',
      processEntry demoBase rep' = some (k', cal') →
      k' = demoCalUrl → cal' = demoCal := by
    intro rep' hmem k' cal' hp' _
    rcases List.mem_singleton.mp hmem with rfl
    rw [h2] at hp'
    simp only [Option.some.injEq, Prod.mk.injEq] at hp'
    exact hp'.2.symm
  exact ⟨h1, h2,
    (discovery_surviving_entries demoBase [demoRep] demoRep demoCalUrl demoCal
      h1 h2 huniq).1⟩

/-- Witness for C5: a freshly created calendar keeps its URL across a
concrete operation sequence that exercises all three public operations. -/
theorem calendar_url_invariant_witness :
    ((Calendar.new "list" demoCalUrl ⟨false, true⟩).runOps
      [.getName, .taskByIdMut "a", .getTasks]).url = demoCalUrl :=
  calendar_url_invariant.2 "list" demoCalUrl ⟨false, true⟩
    [.getName, .taskByIdMut "a", .getTasks]

/-- Witness for C9: `task_by_id_mut` panics on a concrete calendar that
contains a task with the requested id. -/
theorem task_by_id_mut_always_panics_witness :
    Calendar.taskByIdMut
      ⟨"list", demoCalUrl, ⟨false, true⟩, [⟨"a", "task A", false⟩]⟩ "a"
      = Outcome.panic :=
  task_by_id_mut_always_panics.1
    ⟨"list", demoCalUrl, ⟨false, true⟩, [⟨"a", "task A", false⟩]⟩ "a"

end KitchenFridge
